import Mathlib

/-!
Verification of bb220/markdown-to-pdf-viewer.

A local server renders `resume.md` as HTML with live reload (chokidar file
watcher, Server-Sent Events push channel) and exports it to PDF on demand via
Puppeteer.  The client logic lives in `public/client.js`; the server behavior
(`server.js`) is documented in the repository's docs
(`docs/pdf-library-research.md`, `docs/pdf-styling-match-webpage.md`) whose
code excerpts are the basis of the server-side definitions below.
-/

namespace MdPdf

/-! ## PDF configuration (server.js `page.pdf` call) -/

/-- Margin configuration passed to Puppeteer's `page.pdf`, each side a CSS
length string exactly as in the source. -/
structure PdfMargin where
  top : String
  right : String
  bottom : String
  left : String
deriving DecidableEq, Repr

/-- Options object passed to `page.pdf`. -/
structure PdfOptions where
  format : String
  printBackground : Bool
  margin : PdfMargin
deriving DecidableEq, Repr

/-- The `page.pdf` configuration of server.js, as recorded in the repository
docs: `format: 'Letter'`, `printBackground: true`, margins
`top: '0.25in', right: '0.5in', bottom: '0.5in', left: '0.5in'`. -/
def serverPdfOptions : PdfOptions :=
  { format := "Letter"
  , printBackground := true
  , margin := { top := "0.25in", right := "0.5in", bottom := "0.5in", left := "0.5in" } }

/-! ## Client script `public/client.js` -/

/-- Outcome of the client's `fetch('/api/markdown')` + `response.json()`
sequence: either parsed data carrying the rendered HTML, or a rejection
(network failure or JSON parse error) caught by the `try/catch`. -/
inductive FetchOutcome where
  | success (html : String)
  | failure
deriving DecidableEq, Repr

/-- The inline error paragraph `loadMarkdown` writes into the content element
when the fetch fails (client.js lines 19-20). -/
def errorMessageHtml : String :=
  "<p style=\"color: red;\">Error loading resume. Please refresh the page.</p>"

/-- `loadMarkdown` from client.js: returns the id of the DOM element written
to and the innerHTML assigned to it.  On success the fetched `data.html` is
installed; on failure the visible inline error message is installed. -/
def loadMarkdown : FetchOutcome → String × String
  | .success html => ("markdown-content", html)
  | .failure => ("markdown-content", errorMessageHtml)

/-- Visible state of the export button: its label text and `disabled` flag. -/
structure ButtonState where
  text : String
  disabled : Bool
deriving DecidableEq, Repr

/-- Outcome of the client's `fetch('/api/generate-pdf')`:
`okResp blob` for an ok response whose body was read as a blob,
`notOk` for a non-ok status (client throws `PDF generation failed`),
`netError` for a rejected fetch. -/
inductive PdfResponse where
  | okResp (blob : String)
  | notOk
  | netError
deriving DecidableEq, Repr

/-- Externally observable side effects of `exportToPDF`. -/
inductive ClientEffect where
  | openTab (url : String)
  | alertBox (msg : String)
deriving DecidableEq, Repr

/-- Loading label shown while the export request is in flight. -/
def loadingLabel : String := "⏳ Generating PDF..."

/-- Alert text shown by the `catch` branch of `exportToPDF`. -/
def exportErrorAlert : String := "Error generating PDF. Please try again."

/-- Model of `URL.createObjectURL` producing a blob URL. -/
def createObjectURL (blob : String) : String := "blob:" ++ blob

/-- `exportToPDF` from client.js: given the button's initial state and the
response, returns the in-flight button state, the settled button state, and
the effects performed.  The source saves `originalText`, sets the loading
label and `disabled = true`, then on success opens the blob in a new tab and
restores the button; on a non-ok response or a fetch error the `catch` branch
restores the button and raises a blocking alert. -/
def exportToPDF (b : ButtonState) (r : PdfResponse) :
    ButtonState × ButtonState × List ClientEffect :=
  let originalText := b.text
  let inflight : ButtonState := ⟨loadingLabel, true⟩
  match r with
  | .okResp blob => (inflight, ⟨originalText, false⟩, [.openTab (createObjectURL blob)])
  | .notOk => (inflight, ⟨originalText, false⟩, [.alertBox exportErrorAlert])
  | .netError => (inflight, ⟨originalText, false⟩, [.alertBox exportErrorAlert])

/-! ## Server HTTP surface (server.js is not in the repository snapshot; these
definitions are modelled from the spec and the repository docs) -/

/-- Result of reading the Document from disk. -/
inductive ReadResult where
  | ok (text : String)
  | readError (msg : String)
deriving DecidableEq, Repr

/-- JSON envelope returned by `/api/markdown`: either `html: ...` or
`error: ...`. -/
inductive ApiResponse where
  | htmlEnvelope (html : String)
  | errorEnvelope (msg : String)
deriving DecidableEq, Repr

/-- Modelled from the spec: the `/api/markdown` handler of server.js (absent
from the snapshot).  It re-reads the Document on every call, renders it with
the conversion library, and wraps the result: `html: ...` with status 200 on
success, or an `error: ...` envelope with status 500 when the Document is
unreadable.  The handler always returns a response; it never rethrows. -/
def getRendering (render : String → String) : ReadResult → Nat × ApiResponse
  | .ok text => (200, .htmlEnvelope (render text))
  | .readError msg => (500, .errorEnvelope msg)

/-! ## Change Watcher -/

/-- Filesystem observations delivered to the watcher: the initial
"file exists" observation at startup, and subsequent modifications. -/
inductive FsEvent where
  | initialAdd
  | modify
deriving DecidableEq, Repr

/-- Notification emitted by the Change Watcher. -/
inductive WatchEvent where
  | changed
deriving DecidableEq, Repr

/-- Modelled from the spec: the Change Watcher of server.js (absent from the
snapshot).  It ignores the initial "file exists" observation at startup and
emits one `changed` notification per detected modification of the file. -/
def watcherEmits : List FsEvent → List WatchEvent
  | [] => []
  | .initialAdd :: rest => watcherEmits rest
  | .modify :: rest => .changed :: watcherEmits rest

/-! ## Notification Hub -/

/-- Message types pushed over a subscriber channel. -/
inductive SubMsg where
  | connected
  | update
deriving DecidableEq, Repr

/-- A registered subscriber channel: an opaque handle (here an id) plus
whether a write to it will fail at this broadcast. -/
structure Channel where
  id : Nat
  failsWrite : Bool
deriving DecidableEq, Repr

/-- Modelled from the spec: the Notification Hub broadcast of server.js
(absent from the snapshot).  It writes the message to every currently
registered channel in registration order; a write failure on one channel is
logged and delivery continues with the remaining channels.  Returns the list
of (subscriber id, message) deliveries and the list of logged failure ids. -/
def broadcast : List Channel → SubMsg → List (Nat × SubMsg) × List Nat
  | [], _ => ([], [])
  | c :: rest, msg =>
    let r := broadcast rest msg
    if c.failsWrite then (r.1, c.id :: r.2) else ((c.id, msg) :: r.1, r.2)

/-! ## Subscriber connection state machine -/

/-- Connection state of a subscriber channel. -/
inductive SubState where
  | live
  | closed
deriving DecidableEq, Repr

/-- Modelled from the spec: per-subscriber connection state machine (server.js
absent from the snapshot).  A state is the connection status paired with the
messages emitted so far, newest first.  While live, a broadcast appends an
`update`; the connection may close, and the closed state has no outgoing
transitions. -/
inductive SubStep : SubState × List SubMsg → SubState × List SubMsg → Prop where
  | update {ms : List SubMsg} : SubStep (.live, ms) (.live, .update :: ms)
  | close {ms : List SubMsg} : SubStep (.live, ms) (.closed, ms)

/-- Initial state of a subscriber connection: on first accept the hub
immediately emits the `connected` message. -/
def subInit : SubState × List SubMsg := (SubState.live, [SubMsg.connected])

/-! ## PDF Renderer pipeline -/

/-- Commands issued to the headless-browser automation layer. -/
inductive BrowserAction where
  | launch
  | newPage
  | setContent (html : String)
  | navigate (url : String)
  | generatePdf (opts : PdfOptions)
  | closeBrowser
deriving DecidableEq, Repr

/-- Modelled from the spec: the complete standalone HTML document server.js
(absent from the snapshot) assembles for PDF generation — both stylesheets
inlined ahead of the rendered content, so the document is self-contained. -/
def assembleFullHtml (githubCss customCss contentHtml : String) : String :=
  "<!DOCTYPE html><html><head><style>" ++ githubCss ++ "</style><style>"
    ++ customCss ++ "</style></head><body><article class=\"markdown-body\">"
    ++ contentHtml ++ "</article></body></html>"

/-- Modelled from the spec: the browser-automation command sequence of the
server.js `/api/generate-pdf` handler (absent from the snapshot), per the
repository docs: launch a browser, open a page, inject the assembled HTML via
setContent, generate the PDF with the configured options, close the browser. -/
def generatePdfActions (githubCss customCss contentHtml : String) : List BrowserAction :=
  [ .launch
  , .newPage
  , .setContent (assembleFullHtml githubCss customCss contentHtml)
  , .generatePdf serverPdfOptions
  , .closeBrowser ]

/-- Recognizer for the browser-launch command. -/
def isLaunch : BrowserAction → Bool
  | .launch => true
  | _ => false

/-- Recognizer for the browser-teardown command. -/
def isClose : BrowserAction → Bool
  | .closeBrowser => true
  | _ => false

/-- The PDF payload handed back to the HTTP layer: the HTML it was rendered
from and the options it was rendered with (the automation layer itself is an
opaque dependency). -/
structure PdfPayload where
  html : String
  opts : PdfOptions
deriving DecidableEq, Repr

/-- One in-flight export request: its own inputs, its own progress counter
through the four pipeline stages (launch, set content, generate, close), its
own page content and its own result.  No field is shared with any other
export. -/
structure ExportProc where
  doc : String
  gcss : String
  ccss : String
  stage : Nat
  content : Option String
  result : Option PdfPayload
deriving DecidableEq, Repr

/-- A fresh export request for a given document and stylesheets. -/
def initProc (doc gcss ccss : String) : ExportProc :=
  { doc := doc, gcss := gcss, ccss := ccss, stage := 0, content := none, result := none }

/-- One pipeline step of a single export: launch its own browser, inject the
assembled HTML, generate the PDF from its own page content, close its own
browser; a finished export is inert. -/
def stepProc (p : ExportProc) : ExportProc :=
  match p.stage with
  | 0 => { p with stage := 1 }
  | 1 => { p with stage := 2, content := some (assembleFullHtml p.gcss p.ccss p.doc) }
  | 2 => { p with stage := 3, result := p.content.map (fun h => PdfPayload.mk h serverPdfOptions) }
  | 3 => { p with stage := 4 }
  | _ => p

/-- Run two concurrent exports under an arbitrary interleaving: each `true`
in the schedule advances the first export by one step, each `false` the
second.  The two processes touch no common state. -/
def runInterleaved : List Bool → ExportProc × ExportProc → ExportProc × ExportProc
  | [], s => s
  | true :: sched, (p, q) => runInterleaved sched (stepProc p, q)
  | false :: sched, (p, q) => runInterleaved sched (p, stepProc q)

end MdPdf

namespace MdPdf

/-- C1 counterexample: the `page.pdf` call does not use uniform half-inch
margins on all four sides — the top margin is 0.25in. -/
theorem c1_counterexample :
    ¬ (serverPdfOptions.margin.top = "0.5in" ∧ serverPdfOptions.margin.right = "0.5in"
       ∧ serverPdfOptions.margin.bottom = "0.5in" ∧ serverPdfOptions.margin.left = "0.5in") := by
  intro h
  exact absurd h.1 (by decide)

/-- C1 (amended): the PDF generation call configures the headless browser with
page format Letter, background graphics enabled, a quarter-inch (0.25in) top
margin and half-inch (0.5in) right, bottom and left margins. -/
theorem c1_pdf_config :
    serverPdfOptions.format = "Letter"
    ∧ serverPdfOptions.printBackground = true
    ∧ serverPdfOptions.margin.top = "0.25in"
    ∧ serverPdfOptions.margin.right = "0.5in"
    ∧ serverPdfOptions.margin.bottom = "0.5in"
    ∧ serverPdfOptions.margin.left = "0.5in" :=
  ⟨rfl, rfl, rfl, rfl, rfl, rfl⟩

/-- C6: if the initial content fetch fails, `loadMarkdown` writes a non-empty
visible inline error message into the `markdown-content` content area rather
than leaving it blank. -/
theorem c6_load_error_message :
    loadMarkdown .failure = ("markdown-content", errorMessageHtml)
    ∧ errorMessageHtml ≠ "" := by
  exact ⟨rfl, by decide⟩

/-- C7: whenever the PDF export request fails — non-ok response or fetch
error — `exportToPDF` raises a blocking alert and re-enables the export
control, restoring its original text and clearing `disabled`. -/
theorem c7_export_failure_recovery (b : ButtonState) (r : PdfResponse)
    (h : r = .notOk ∨ r = .netError) :
    (exportToPDF b r).2.1 = ⟨b.text, false⟩
    ∧ ClientEffect.alertBox exportErrorAlert ∈ (exportToPDF b r).2.2 := by
  rcases h with h | h <;> subst h <;> exact ⟨rfl, List.mem_singleton.mpr rfl⟩

/-- C7 witness: a concrete failing export (non-ok response) on a button
labelled with the source's export label. -/
theorem c7_export_failure_recovery_witness :
    ((PdfResponse.notOk = PdfResponse.notOk ∨ PdfResponse.notOk = PdfResponse.netError)
    ∧ ((exportToPDF ⟨"📄 Export as PDF", false⟩ PdfResponse.notOk).2.1
          = ⟨"📄 Export as PDF", false⟩
        ∧ ClientEffect.alertBox exportErrorAlert
            ∈ (exportToPDF ⟨"📄 Export as PDF", false⟩ PdfResponse.notOk).2.2)) :=
  ⟨Or.inl rfl,
    c7_export_failure_recovery ⟨"📄 Export as PDF", false⟩ PdfResponse.notOk (Or.inl rfl)⟩

/-- C10: every invocation of `exportToPDF` disables the button and shows the
loading label while the request is in flight, and after the request settles —
success or failure — restores the original text and sets `disabled := false`. -/
theorem c10_button_restored (b : ButtonState) (r : PdfResponse) :
    (exportToPDF b r).1 = ⟨loadingLabel, true⟩
    ∧ (exportToPDF b r).2.1 = ⟨b.text, false⟩ := by
  cases r <;> exact ⟨rfl, rfl⟩

/-- C3: when the Document is unreadable, `getRendering` returns the structured
error envelope with status 500 (a 500-class status) instead of throwing across
the boundary; on success it returns the html envelope with status 200; and on
every input it returns a response (the handler is total — the process never
exits because of a single request's failure). -/
theorem c3_get_rendering (render : String → String) (msg text : String) :
    getRendering render (.readError msg) = (500, .errorEnvelope msg)
    ∧ (getRendering render (.readError msg)).1 / 100 = 5
    ∧ getRendering render (.ok text) = (200, .htmlEnvelope (render text))
    ∧ ∀ r : ReadResult, ∃ status resp, getRendering render r = (status, resp) :=
  ⟨rfl, by simp [getRendering], rfl,
    fun r => ⟨(getRendering render r).1, (getRendering render r).2, rfl⟩⟩

/-- C8: the Change Watcher emits no event for the initial "file exists"
observation at startup, and emits exactly one `changed` notification per
subsequent modification. -/
theorem c8_watcher_events (n : Nat) (rest : List FsEvent) :
    watcherEmits (.initialAdd :: rest) = watcherEmits rest
    ∧ watcherEmits (.modify :: rest) = .changed :: watcherEmits rest
    ∧ watcherEmits (.initialAdd :: List.replicate n .modify)
        = List.replicate n .changed := by
  refine ⟨rfl, rfl, ?_⟩
  show watcherEmits (List.replicate n .modify) = List.replicate n .changed
  induction n with
  | zero => rfl
  | succ k ih => simp only [List.replicate_succ, watcherEmits, ih]

/-- C5: a write failure on one channel does not abort broadcast delivery to
the remaining channels — every registered channel whose write succeeds
receives the message, and every failing channel is logged, regardless of the
other channels in the set. -/
theorem c5_broadcast_isolation (subs : List Channel) (msg : SubMsg) (c : Channel)
    (hmem : c ∈ subs) :
    (c.failsWrite = false → (c.id, msg) ∈ (broadcast subs msg).1)
    ∧ (c.failsWrite = true → c.id ∈ (broadcast subs msg).2) := by
  induction subs with
  | nil => cases hmem
  | cons a rest ih =>
    rcases List.mem_cons.mp hmem with h | h
    · subst h
      refine ⟨fun hf => ?_, fun hf => ?_⟩
      · simp [broadcast, hf]
      · simp [broadcast, hf]
    · obtain ⟨ih1, ih2⟩ := ih h
      refine ⟨fun hf => ?_, fun hf => ?_⟩
      · by_cases ha : a.failsWrite
        · simpa [broadcast, ha] using ih1 hf
        · simp [broadcast, ha]
          exact Or.inr (by simpa using ih1 hf)
      · by_cases ha : a.failsWrite
        · simp [broadcast, ha]
          exact Or.inr (by simpa using ih2 hf)
        · simpa [broadcast, ha] using ih2 hf

/-- C5 witness: with three registered channels of which the middle one fails
its write, the two healthy channels still receive the update and the failing
one is logged. -/
theorem c5_broadcast_isolation_witness :
    (Channel.mk 3 false ∈ [Channel.mk 1 false, Channel.mk 2 true, Channel.mk 3 false])
    ∧ ((Channel.mk 3 false).failsWrite = false →
        ((Channel.mk 3 false).id, SubMsg.update)
          ∈ (broadcast [Channel.mk 1 false, Channel.mk 2 true, Channel.mk 3 false]
              SubMsg.update).1)
    ∧ ((Channel.mk 3 false).failsWrite = true →
        (Channel.mk 3 false).id
          ∈ (broadcast [Channel.mk 1 false, Channel.mk 2 true, Channel.mk 3 false]
              SubMsg.update).2) :=
  ⟨by decide,
    c5_broadcast_isolation [Channel.mk 1 false, Channel.mk 2 true, Channel.mk 3 false]
      SubMsg.update (Channel.mk 3 false) (by decide)⟩

/-- Closed subscriber connections admit no transition at all. -/
theorem subStep_closed_terminal (ms : List SubMsg) (t : SubState × List SubMsg) :
    ¬ SubStep (SubState.closed, ms) t :=
  fun h => nomatch h

/-- C4: in every state reachable from a fresh subscriber connection, the
emitted message sequence is the `connected` message followed by zero or more
`update` messages (newest first in the trace), and once the connection is
`closed` no further transition exists — there is no way back to the live
state. -/
theorem c4_subscriber_trace (s : SubState × List SubMsg)
    (h : Relation.ReflTransGen SubStep subInit s) :
    (∃ n, s.2 = List.replicate n SubMsg.update ++ [SubMsg.connected])
    ∧ (s.1 = SubState.closed → ∀ t, ¬ SubStep s t) := by
  induction h with
  | refl =>
    refine ⟨⟨0, rfl⟩, fun hcl => absurd hcl (by simp [subInit])⟩
  | tail hab hbc ih =>
    obtain ⟨⟨n, hn⟩, _⟩ := ih
    cases hbc with
    | update =>
      refine ⟨⟨n + 1, ?_⟩, fun hcl => absurd hcl (by simp)⟩
      simp only [List.replicate_succ, List.cons_append]
      exact congrArg _ hn
    | close =>
      exact ⟨⟨n, hn⟩, fun _ t => subStep_closed_terminal _ t⟩

/-- C2: the PDF Renderer hands the browser automation layer the fully
assembled standalone HTML document via setContent, and the command sequence
contains no navigation to any URL — in particular it never fetches the
server's own running HTTP endpoint. -/
theorem c2_pdf_content_injected (githubCss customCss contentHtml : String) :
    BrowserAction.setContent (assembleFullHtml githubCss customCss contentHtml)
        ∈ generatePdfActions githubCss customCss contentHtml
    ∧ ∀ url, BrowserAction.navigate url ∉ generatePdfActions githubCss customCss contentHtml := by
  constructor
  · simp [generatePdfActions]
  · intro url h
    simp [generatePdfActions] at h

/-- An export that has run through all four pipeline stages is inert. -/
theorem stepProc_fixed (p : ExportProc) (h : p.stage = 4) : stepProc p = p := by
  obtain ⟨d, g, c, st, ct, res⟩ := p
  simp only at h
  subst h
  rfl

/-- Interleaving acts componentwise: each export advances exactly by its own
scheduled steps, untouched by the other export's steps. -/
theorem runInterleaved_eq (sched : List Bool) (p q : ExportProc) :
    runInterleaved sched (p, q)
      = (stepProc^[sched.count true] p, stepProc^[sched.count false] q) := by
  induction sched generalizing p q with
  | nil => simp [runInterleaved]
  | cons b sched ih =>
    cases b with
    | true =>
      rw [show runInterleaved (true :: sched) (p, q) = runInterleaved sched (stepProc p, q)
            from rfl, ih]
      simp [List.count_cons, Function.iterate_succ_apply]
    | false =>
      rw [show runInterleaved (false :: sched) (p, q) = runInterleaved sched (p, stepProc q)
            from rfl, ih]
      simp [List.count_cons, Function.iterate_succ_apply]

/-- After at least the four pipeline steps, an export holds the PDF payload
rendered from its own document and stylesheets. -/
theorem stepProc_complete (d g c : String) (n : Nat) (h : 4 ≤ n) :
    stepProc^[n] (initProc d g c)
      = { doc := d, gcss := g, ccss := c, stage := 4
        , content := some (assembleFullHtml g c d)
        , result := some { html := assembleFullHtml g c d, opts := serverPdfOptions } } := by
  obtain ⟨k, rfl⟩ := Nat.exists_eq_add_of_le h
  rw [Nat.add_comm, Function.iterate_add_apply]
  have h4 : stepProc^[4] (initProc d g c)
      = { doc := d, gcss := g, ccss := c, stage := 4
        , content := some (assembleFullHtml g c d)
        , result := some { html := assembleFullHtml g c d, opts := serverPdfOptions } } := rfl
  rw [h4]
  exact Function.iterate_fixed (stepProc_fixed _ rfl) k

/-- C9: each export's browser-command sequence launches exactly one browser
process, starting with the launch, and tears it down with exactly one close
as its final command; and for any interleaving of two concurrent exports that
schedules each enough steps, both finish with the PDF payload of their own
document — no shared mutable state lets one corrupt the other. -/
theorem c9_per_export_browser (sched : List Bool) (d1 g1 c1 d2 g2 c2 : String)
    (h1 : 4 ≤ sched.count true) (h2 : 4 ≤ sched.count false) :
    ((generatePdfActions g1 c1 d1).countP isLaunch = 1
      ∧ (generatePdfActions g1 c1 d1).countP isClose = 1
      ∧ (generatePdfActions g1 c1 d1).head? = some BrowserAction.launch
      ∧ (generatePdfActions g1 c1 d1).getLast? = some BrowserAction.closeBrowser)
    ∧ (runInterleaved sched (initProc d1 g1 c1, initProc d2 g2 c2)).1.result
        = some { html := assembleFullHtml g1 c1 d1, opts := serverPdfOptions }
    ∧ (runInterleaved sched (initProc d1 g1 c1, initProc d2 g2 c2)).2.result
        = some { html := assembleFullHtml g2 c2 d2, opts := serverPdfOptions } := by
  refine ⟨⟨rfl, rfl, rfl, rfl⟩, ?_, ?_⟩
  · rw [runInterleaved_eq, stepProc_complete d1 g1 c1 _ h1]
  · rw [runInterleaved_eq, stepProc_complete d2 g2 c2 _ h2]

/-- C9 witness: a concrete interleaving that alternates both exports four
steps each; both finish with their own payload. -/
theorem c9_per_export_browser_witness :
    4 ≤ ([true, false, true, false, true, false, true, false] : List Bool).count true
    ∧ 4 ≤ ([true, false, true, false, true, false, true, false] : List Bool).count false
    ∧ (((generatePdfActions "gh" "cs" "docA").countP isLaunch = 1
        ∧ (generatePdfActions "gh" "cs" "docA").countP isClose = 1
        ∧ (generatePdfActions "gh" "cs" "docA").head? = some BrowserAction.launch
        ∧ (generatePdfActions "gh" "cs" "docA").getLast? = some BrowserAction.closeBrowser)
      ∧ (runInterleaved [true, false, true, false, true, false, true, false]
            (initProc "docA" "gh" "cs", initProc "docB" "gh" "cs")).1.result
          = some { html := assembleFullHtml "gh" "cs" "docA", opts := serverPdfOptions }
      ∧ (runInterleaved [true, false, true, false, true, false, true, false]
            (initProc "docA" "gh" "cs", initProc "docB" "gh" "cs")).2.result
          = some { html := assembleFullHtml "gh" "cs" "docB", opts := serverPdfOptions }) :=
  ⟨by decide, by decide,
    c9_per_export_browser [true, false, true, false, true, false, true, false]
      "docA" "gh" "cs" "docB" "gh" "cs" (by decide) (by decide)⟩

/-- C4 witness: the state reached after the initial accept, one broadcast
update and a disconnect is a closed terminal state whose trace is exactly
`connected` then one `update`. -/
theorem c4_subscriber_trace_witness :
    (∃ n, ((SubState.closed, [SubMsg.update, SubMsg.connected]) :
        SubState × List SubMsg).2 = List.replicate n SubMsg.update ++ [SubMsg.connected])
    ∧ (((SubState.closed, [SubMsg.update, SubMsg.connected]) :
        SubState × List SubMsg).1 = SubState.closed →
        ∀ t, ¬ SubStep (SubState.closed, [SubMsg.update, SubMsg.connected]) t) :=
  c4_subscriber_trace (SubState.closed, [SubMsg.update, SubMsg.connected])
    (Relation.ReflTransGen.tail
      (Relation.ReflTransGen.tail Relation.ReflTransGen.refl SubStep.update)
      SubStep.close)

end MdPdf
